import Mathlib

/-! Dock adapter and volta inspector model.

A shallow embedding of `src/appshell/view/dockwindow/internal/dockbase.cpp`
(class `mu::dock::DockBase`) and of
`src/inspector/models/notation/lines/voltasettingsmodel.cpp`
(class `mu::inspector::VoltaSettingsModel`).

Conventions
* C++ `int` is `Int`; the only arithmetic in the embedded code is `max`, `min`
  and the `QRect` corner computation, none of which is relied on near the
  32 bit limits.
* A member function that mutates the object and may emit signals becomes a
  function `DockBase → DockBase × List Signal`; the list is the sequence of
  signals emitted, in order.
* Objects owned by the docking library (dock widget, frame, floating window,
  layout widget) are records holding what the accessors the adapter reads
  report; a library setter stores its argument in the field its getter reads.
  Library calls whose effect stays inside the library are recorded in a call
  log.
-/

namespace mu.dock

/-! ## Toolkit value types -/

/-- Qt `QSize`: a width and a height (members `wd`, `ht`). -/
structure QSize where
  wd : Int
  ht : Int
deriving DecidableEq, Repr

/-- Qt `QSize::expandedTo`: componentwise maximum. -/
def QSize.expandedTo (s o : QSize) : QSize :=
  ⟨max s.wd o.wd, max s.ht o.ht⟩

/-- Qt `QSize::boundedTo`: componentwise minimum. -/
def QSize.boundedTo (s o : QSize) : QSize :=
  ⟨min s.wd o.wd, min s.ht o.ht⟩

/-- Qt `QPoint`. -/
structure QPoint where
  xp : Int
  yp : Int
deriving DecidableEq, Repr

/-- Qt `QRect`, stored as its two corners: `x2 = x1 + width - 1`. -/
structure QRect where
  x1 : Int
  y1 : Int
  x2 : Int
  y2 : Int
deriving DecidableEq, Repr

/-- Default constructed `QRect()`: the null rectangle `(0, 0, -1, -1)`. -/
def QRect.null : QRect := ⟨0, 0, -1, -1⟩

/-- Constructor `QRect(const QPoint& topLeft, const QSize& size)`. -/
def QRect.ofTopLeftSize (p : QPoint) (sz : QSize) : QRect :=
  ⟨p.xp, p.yp, p.xp + sz.wd - 1, p.yp + sz.ht - 1⟩

/-- Qt `QRect::topLeft`. -/
def QRect.topLeft (r : QRect) : QPoint := ⟨r.x1, r.y1⟩

/-- Qt `QRect::size`. -/
def QRect.size (r : QRect) : QSize := ⟨r.x2 - r.x1 + 1, r.y2 - r.y1 + 1⟩

/-- Qt `QRect::isEmpty`. -/
def QRect.isEmpty (r : QRect) : Bool := decide (r.x1 > r.x2) || decide (r.y1 > r.y2)

/-- Qt `QVariant`, restricted to the payloads a drop-destination list can
carry: nothing, an integer, a boolean, a string, a pointer to a dock
(identified by a number), a map and a list.  Floating point payloads are not
represented. -/
inductive QVariant where
  | invalid
  | ofInt (i : Int)
  | ofBool (b : Bool)
  | ofString (s : String)
  | ofObject (p : Nat)
  | ofMap (m : List (String × QVariant))
  | ofList (l : List QVariant)

/-- A `QVariantMap`, kept as an association list. -/
abbrev QVariantMap := List (String × QVariant)

/-- A `QVariantList`. -/
abbrev QVariantList := List QVariant

mutual
/-- Comparison `operator==` of two variants holding the same kind of payload. -/
def QVariant.beq : QVariant → QVariant → Bool
  | .invalid, .invalid => true
  | .ofInt a, .ofInt b => a == b
  | .ofBool a, .ofBool b => a == b
  | .ofString a, .ofString b => a == b
  | .ofObject a, .ofObject b => a == b
  | .ofMap a, .ofMap b => QVariant.beqMap a b
  | .ofList a, .ofList b => QVariant.beqList a b
  | _, _ => false
/-- Comparison of two variant maps, entry by entry. -/
def QVariant.beqMap : List (String × QVariant) → List (String × QVariant) → Bool
  | [], [] => true
  | (k, v) :: xs, (k2, v2) :: ys => k == k2 && QVariant.beq v v2 && QVariant.beqMap xs ys
  | _, _ => false
/-- Comparison `operator==` of two variant lists, element by element. -/
def QVariant.beqList : List QVariant → List QVariant → Bool
  | [], [] => true
  | v :: xs, v2 :: ys => QVariant.beq v v2 && QVariant.beqList xs ys
  | _, _ => false
end

/-- Qt `QVariant::toMap`: the held map, or an empty map for any other payload. -/
def QVariant.toMap : QVariant → QVariantMap
  | .ofMap m => m
  | _ => []

/-- Qt `QMap::contains`. -/
def QVariantMap.contains (m : QVariantMap) (key : String) : Bool :=
  m.any (fun kv => kv.1 == key)

/-- Qt `QMap::operator[]` read as a value: the value stored under the key, or a
default constructed (invalid) variant when the key is absent. -/
def QVariantMap.value (m : QVariantMap) (key : String) : QVariant :=
  match m.find? (fun kv => kv.1 == key) with
  | some kv => kv.2
  | none => .invalid

/-- Qt `QString::toInt`: the decimal number the string spells, surrounding
white space and one leading sign allowed; `0` when it spells none or the
number does not fit a 32 bit `int`. -/
def QString.toInt (s : String) : Int :=
  let t := s.trim
  let parsed : Option Int :=
    if t.startsWith "+" then (t.drop 1).toNat?.map Int.ofNat else t.toInt?
  match parsed with
  | some i => if -2147483648 ≤ i ∧ i ≤ 2147483647 then i else 0
  | none => 0

/-- Qt `QVariant::toInt`: the integer held, `1`/`0` for a boolean, the number a
string spells, and `0` for every other payload. -/
def QVariant.toInt : QVariant → Int
  | .ofInt i => i
  | .ofBool b => if b then 1 else 0
  | .ofString s => QString.toInt s
  | _ => 0

/-- Qt `QVariant::value<DockBase*>()`: the dock pointer held, or `nullptr`
(here `none`) for every other payload. -/
def QVariant.toDock : QVariant → Option Nat
  | .ofObject p => some p
  | _ => none

/-! ## Dock types used by the adapter -/

/-- The scoped enumeration `Location`: every `int` converts to it by
`static_cast`, so it is kept as the underlying integer. -/
structure Location where
  raw : Int
deriving DecidableEq, Repr

/-- Modelled from the spec: the enumerator `Location::Undefined`.  The
enumeration is declared in `docktypes.h`, absent from the sources covered
here; its enumerators are numbered in declaration order, and nothing below
depends on the numbers chosen. -/
def Location.Undefined : Location := ⟨0⟩

/-- Modelled from the spec: the enumerator `Location::Left`, the default
location of a drop destination (see `Location.Undefined`). -/
def Location.Left : Location := ⟨1⟩

/-- The conversion `static_cast<Location>(int)`. -/
def Location.ofInt (i : Int) : Location := ⟨i⟩

/-- A `DropDestination`: target dock, drop location and drop distance.  The
structure is declared in `docktypes.h`, absent from the sources covered here;
the member defaults are taken to be the values `DropDestination::clear`
restores. -/
structure DropDestination where
  dock : Option Nat := none
  dropLocation : Location := Location.Undefined
  dropDistance : Int := 0
deriving DecidableEq, Repr

/-- `DropDestination::isValid`. -/
def DropDestination.isValid (d : DropDestination) : Bool := d.dock.isSome

/-- `DropDestination::clear`. -/
def DropDestination.clear (_d : DropDestination) : DropDestination :=
  { dock := none, dropLocation := Location.Undefined, dropDistance := 0 }

/-- The value `DockBase::type()` returns, kept as the underlying integer of
the enumeration `DockType`. -/
abbrev DockType := Int

/-- The record `DockProperties` that `writeProperties` fills. -/
structure DockProperties where
  type : DockType
  location : Location
  persistent : Bool
  separatorsVisible : Bool
  highlightingRect : QRect
deriving DecidableEq, Repr

/-! ## Objects of the docking library -/

/-- The layout widget of a floating window: the size last given to
`setLayoutSize`. -/
structure LayoutWidget where
  layoutSize : QSize
deriving DecidableEq, Repr

/-- `LayoutWidget::setLayoutSize`. -/
def LayoutWidget.setLayoutSize (l : LayoutWidget) (sz : QSize) : LayoutWidget :=
  { l with layoutSize := sz }

/-- A `KDDockWidgets::Frame`: its size bounds. -/
structure Frame where
  minimumSize : QSize
  maximumSize : QSize
deriving DecidableEq, Repr

/-- `Frame::setMinimumSize`. -/
def Frame.setMinimumSize (f : Frame) (sz : QSize) : Frame := { f with minimumSize := sz }

/-- `Frame::setMaximumSize`. -/
def Frame.setMaximumSize (f : Frame) (sz : QSize) : Frame := { f with maximumSize := sz }

/-- A `KDDockWidgets::FloatingWindow`: size bounds, the rectangles the
accessors `frameGeometry()` and `geometry()` report, the extent of its drag
area (its title bar), and the layout widget when there is one. -/
structure FloatingWindow where
  minimumSize : QSize
  maximumSize : QSize
  frameGeometry : QRect
  dragRectSize : QSize
  geometry : QRect
  layoutWidget : Option LayoutWidget
deriving DecidableEq, Repr

/-- Modelled from the spec: `FloatingWindow::dragRect`, a function of the
docking library (`thirdparty/KDDockWidgets`), absent from the sources covered
here.  The adapter repositions the window at the top-left corner of this
rectangle, and the spec calls that corner the window's "top-left anchor",
which repositioning keeps fixed: the drag rectangle starts at the top-left
corner of the window's geometry and has the extent of the drag area. -/
def FloatingWindow.dragRect (w : FloatingWindow) : QRect :=
  QRect.ofTopLeftSize w.geometry.topLeft w.dragRectSize

/-- `FloatingWindow::setMinimumSize`. -/
def FloatingWindow.setMinimumSize (w : FloatingWindow) (sz : QSize) : FloatingWindow :=
  { w with minimumSize := sz }

/-- `FloatingWindow::setMaximumSize`. -/
def FloatingWindow.setMaximumSize (w : FloatingWindow) (sz : QSize) : FloatingWindow :=
  { w with maximumSize := sz }

/-- `FloatingWindow::setGeometry`. -/
def FloatingWindow.setGeometry (w : FloatingWindow) (r : QRect) : FloatingWindow :=
  { w with geometry := r }

/-- A call on the dock widget whose effect stays inside the docking library. -/
inductive DockWidgetCall where
  | setFloating (floating : Bool)
  | show
  | forceClose
  | writeProperties (properties : DockProperties)
deriving DecidableEq, Repr

/-- The `KDDockWidgets::DockWidgetQuick` behind a dock (`DockWidgetImpl`): what
its accessors report, its frame and floating window when they exist, and the
log of the calls made on it. -/
structure DockWidgetQuick where
  isOpen : Bool
  isVisible : Bool
  hasParentItem : Bool
  frameGeometry : QRect
  minimumSize : QSize
  maximumSize : QSize
  frame : Option Frame
  floatingWindow : Option FloatingWindow
  calls : List DockWidgetCall
deriving DecidableEq, Repr

/-- `minimumWidth()` of the dock widget. -/
def DockWidgetQuick.minimumWidth (dw : DockWidgetQuick) : Int := dw.minimumSize.wd

/-- `minimumHeight()` of the dock widget. -/
def DockWidgetQuick.minimumHeight (dw : DockWidgetQuick) : Int := dw.minimumSize.ht

/-- `maximumWidth()` of the dock widget. -/
def DockWidgetQuick.maximumWidth (dw : DockWidgetQuick) : Int := dw.maximumSize.wd

/-- `maximumHeight()` of the dock widget. -/
def DockWidgetQuick.maximumHeight (dw : DockWidgetQuick) : Int := dw.maximumSize.ht

/-- `setMinimumSize` of the dock widget. -/
def DockWidgetQuick.setMinimumSize (dw : DockWidgetQuick) (sz : QSize) : DockWidgetQuick :=
  { dw with minimumSize := sz }

/-- `setMaximumSize` of the dock widget. -/
def DockWidgetQuick.setMaximumSize (dw : DockWidgetQuick) (sz : QSize) : DockWidgetQuick :=
  { dw with maximumSize := sz }

/-- Appends a call to the dock widget's call log. -/
def DockWidgetQuick.record (dw : DockWidgetQuick) (c : DockWidgetCall) : DockWidgetQuick :=
  { dw with calls := dw.calls ++ [c] }

/-! ## The adapter `DockBase` -/

/-- Modelled from the spec: the macro `IF_ASSERT_FAILED` of `log.h`, absent
from the sources covered here: "operations against an unattached or null
underlying widget are logged and abandoned rather than raising a propagating
error".
The value tells whether the guarded block runs, which it does exactly when the
condition fails; the diagnostic goes to the log, which is not part of the
adapter. -/
def IF_ASSERT_FAILED (cond : Bool) : Bool := !cond

/-- The change notifications of `DockBase` (its `Q_OBJECT` signals), together
with `visibleChanged`, which the base class `QQuickItem` emits from
`setVisible`. -/
inductive Signal where
  | titleChanged
  | minimumSizeChanged
  | maximumSizeChanged
  | contentSizeChanged
  | locationChanged
  | dropDestinationsChanged
  | persistentChanged
  | resizableChanged
  | separatorsVisibleChanged
  | floatingChanged
  | visibleChanged
deriving DecidableEq, Repr

/-- The state of a `DockBase`: its data members, the visibility it inherits
from `QQuickItem`, the value its virtual `type()` returns, and the dock widget
`m_dockWidget` points to (`none` is the null pointer). -/
structure DockBase where
  m_title : String
  m_minimumWidth : Int
  m_minimumHeight : Int
  m_maximumWidth : Int
  m_maximumHeight : Int
  m_contentWidth : Int
  m_contentHeight : Int
  m_location : Int
  m_dropDestinations : QVariantList
  m_persistent : Bool
  m_resizable : Bool
  m_separatorsVisible : Bool
  m_floating : Option Bool
  m_defaultVisibility : Bool
  m_highlightingRect : QRect
  m_dockWidget : Option DockWidgetQuick
  visible : Bool
  dockType : DockType

namespace DockBase

/-- `DockBase::title`. -/
def title (s : DockBase) : String := s.m_title

/-- `DockBase::minimumWidth`. -/
def minimumWidth (s : DockBase) : Int := s.m_minimumWidth

/-- `DockBase::minimumHeight`. -/
def minimumHeight (s : DockBase) : Int := s.m_minimumHeight

/-- `DockBase::maximumWidth`. -/
def maximumWidth (s : DockBase) : Int := s.m_maximumWidth

/-- `DockBase::maximumHeight`. -/
def maximumHeight (s : DockBase) : Int := s.m_maximumHeight

/-- `DockBase::contentWidth`. -/
def contentWidth (s : DockBase) : Int := s.m_contentWidth

/-- `DockBase::contentHeight`. -/
def contentHeight (s : DockBase) : Int := s.m_contentHeight

/-- `DockBase::locationProperty`. -/
def locationProperty (s : DockBase) : Int := s.m_location

/-- `DockBase::location`. -/
def location (s : DockBase) : Location := Location.ofInt s.m_location

/-- `DockBase::dropDestinationsProperty`. -/
def dropDestinationsProperty (s : DockBase) : QVariantList := s.m_dropDestinations

/-- The body of the loop of `DockBase::dropDestinations`: the destination
built from one entry of the list. -/
def dropDestinationOf (obj : QVariant) : DropDestination :=
  let map := obj.toMap
  let destination : DropDestination := {}
  let destination := { destination with dock := (map.value "dock").toDock }
  let destination :=
    if map.contains "dropLocation" then
      { destination with dropLocation := Location.ofInt (map.value "dropLocation").toInt }
    else
      { destination with dropLocation := Location.Left }
  let destination :=
    if map.contains "dropDistance" then
      { destination with dropDistance := (map.value "dropDistance").toInt }
    else
      destination
  destination

/-- The loop of `DockBase::dropDestinations` over the remaining entries,
appending to `result`. -/
def dropDestinationsLoop : QVariantList → List DropDestination → List DropDestination
  | [], result => result
  | obj :: rest, result => dropDestinationsLoop rest (result ++ [dropDestinationOf obj])

/-- `DockBase::dropDestinations`. -/
def dropDestinations (s : DockBase) : List DropDestination :=
  dropDestinationsLoop s.m_dropDestinations []

/-- `DockBase::persistent`. -/
def persistent (s : DockBase) : Bool := s.m_persistent

/-- `DockBase::resizable`. -/
def resizable (s : DockBase) : Bool := s.m_resizable

/-- `DockBase::separatorsVisible`. -/
def separatorsVisible (s : DockBase) : Bool := s.m_separatorsVisible

/-- `DockBase::floating`: `m_floating.value_or(false)`. -/
def floating (s : DockBase) : Bool := s.m_floating.getD false

/-- `DockBase::dockWidget`. -/
def dockWidget (s : DockBase) : Option DockWidgetQuick := s.m_dockWidget

end DockBase

/-- The file-local helper `adjustSizeByContraints`. -/
def adjustSizeByContraints (size min max : QSize) : QSize :=
  (size.expandedTo min).boundedTo max

namespace DockBase

/-- `DockBase::applySizeConstraints`. -/
def applySizeConstraints (s : DockBase) : DockBase :=
  match s.m_dockWidget with
  | none => s
  | some dw =>
    let minWidth := if s.m_minimumWidth > 0 then s.m_minimumWidth else dw.minimumWidth
    let minHeight := if s.m_minimumHeight > 0 then s.m_minimumHeight else dw.minimumHeight
    let maxWidth := if s.m_maximumWidth > 0 then s.m_maximumWidth else dw.maximumWidth
    let maxHeight := if s.m_maximumHeight > 0 then s.m_maximumHeight else dw.maximumHeight
    let minimumSize : QSize := ⟨minWidth, minHeight⟩
    let maximumSize : QSize := ⟨maxWidth, maxHeight⟩
    let maximumSize := if !s.m_resizable then minimumSize else maximumSize
    let dw :=
      match dw.frame with
      | some frame =>
        { dw with frame := some ((frame.setMinimumSize minimumSize).setMaximumSize maximumSize) }
      | none => dw
    let dw := (dw.setMinimumSize minimumSize).setMaximumSize maximumSize
    let dw :=
      match dw.floatingWindow with
      | some window =>
        let window := (window.setMinimumSize minimumSize).setMaximumSize maximumSize
        let winSize := adjustSizeByContraints window.frameGeometry.size minimumSize maximumSize
        let winRect := QRect.ofTopLeftSize window.dragRect.topLeft winSize
        let window := window.setGeometry winRect
        let window :=
          match window.layoutWidget with
          | some layout => { window with layoutWidget := some (layout.setLayoutSize winSize) }
          | none => window
        { dw with floatingWindow := some window }
      | none => dw
    { s with m_dockWidget := some dw }

/-- The statement `emit sig`: the signal is recorded and the slots connected to
it run.  `componentComplete` connects `minimumSizeChanged` and
`maximumSizeChanged` to `applySizeConstraints` right after it has attached
the dock widget; before that `applySizeConstraints` returns at once, so
running it on every such emission covers both situations. -/
def emit (s : DockBase) (sig : Signal) : DockBase × List Signal :=
  match sig with
  | .minimumSizeChanged => (s.applySizeConstraints, [sig])
  | .maximumSizeChanged => (s.applySizeConstraints, [sig])
  | _ => (s, [sig])

/-- `DockBase::setTitle`. -/
def setTitle (s : DockBase) (title : String) : DockBase × List Signal :=
  if title = s.m_title then (s, [])
  else ({ s with m_title := title }).emit .titleChanged

/-- `DockBase::setMinimumWidth`. -/
def setMinimumWidth (s : DockBase) (width : Int) : DockBase × List Signal :=
  if width = s.minimumWidth then (s, [])
  else ({ s with m_minimumWidth := width }).emit .minimumSizeChanged

/-- `DockBase::setMinimumHeight`. -/
def setMinimumHeight (s : DockBase) (height : Int) : DockBase × List Signal :=
  if height = s.minimumHeight then (s, [])
  else ({ s with m_minimumHeight := height }).emit .minimumSizeChanged

/-- `DockBase::setMaximumWidth`. -/
def setMaximumWidth (s : DockBase) (width : Int) : DockBase × List Signal :=
  if width = s.maximumWidth then (s, [])
  else ({ s with m_maximumWidth := width }).emit .maximumSizeChanged

/-- `DockBase::setMaximumHeight`. -/
def setMaximumHeight (s : DockBase) (height : Int) : DockBase × List Signal :=
  if height = s.maximumHeight then (s, [])
  else ({ s with m_maximumHeight := height }).emit .maximumSizeChanged

/-- `DockBase::setContentWidth`. -/
def setContentWidth (s : DockBase) (width : Int) : DockBase × List Signal :=
  if s.m_contentWidth = width then (s, [])
  else ({ s with m_contentWidth := width }).emit .contentSizeChanged

/-- `DockBase::setContentHeight`. -/
def setContentHeight (s : DockBase) (height : Int) : DockBase × List Signal :=
  if s.m_contentHeight = height then (s, [])
  else ({ s with m_contentHeight := height }).emit .contentSizeChanged

/-- `DockBase::setLocation`. -/
def setLocation (s : DockBase) (location : Int) : DockBase × List Signal :=
  if location = s.m_location then (s, [])
  else ({ s with m_location := location }).emit .locationChanged

/-- `DockBase::setDropDestinations`. -/
def setDropDestinations (s : DockBase) (destinations : QVariantList) : DockBase × List Signal :=
  if QVariant.beqList s.m_dropDestinations destinations then (s, [])
  else ({ s with m_dropDestinations := destinations }).emit .dropDestinationsChanged

/-- `DockBase::setPersistent`. -/
def setPersistent (s : DockBase) (persistent : Bool) : DockBase × List Signal :=
  if persistent = s.m_persistent then (s, [])
  else ({ s with m_persistent := persistent }).emit .persistentChanged

/-- `DockBase::setResizable`. -/
def setResizable (s : DockBase) (resizable : Bool) : DockBase × List Signal :=
  if resizable = s.m_resizable then (s, [])
  else ({ s with m_resizable := resizable }).emit .resizableChanged

/-- `DockBase::setSeparatorsVisible`. -/
def setSeparatorsVisible (s : DockBase) (visible : Bool) : DockBase × List Signal :=
  if visible = s.m_separatorsVisible then (s, [])
  else ({ s with m_separatorsVisible := visible }).emit .separatorsVisibleChanged

/-- `QQuickItem::setVisible`: stores the flag and emits `visibleChanged` when it
changed. -/
def setVisible (s : DockBase) (v : Bool) : DockBase × List Signal :=
  if v = s.visible then (s, [])
  else ({ s with visible := v }).emit .visibleChanged

/-- `DockBase::setFloating`.  In the `none` case of the `match` the guard has
already returned. -/
def setFloating (s : DockBase) (floating : Bool) : DockBase × List Signal :=
  if IF_ASSERT_FAILED s.m_dockWidget.isSome then (s, [])
  else
    match s.m_dockWidget with
    | some dw => ({ s with m_dockWidget := some (dw.record (.setFloating floating)) }, [])
    | none => (s, [])

/-- `DockBase::init`. -/
def init (s : DockBase) : DockBase × List Signal :=
  if IF_ASSERT_FAILED s.m_dockWidget.isSome then (s, [])
  else
    match s.m_dockWidget with
    | some dw => s.setVisible dw.isOpen
    | none => (s, [])

/-- `DockBase::isOpen`. -/
def isOpen (s : DockBase) : Bool :=
  if IF_ASSERT_FAILED s.m_dockWidget.isSome then false
  else
    match s.m_dockWidget with
    | some dw => dw.isOpen
    | none => false

/-- `DockBase::open`. -/
def «open» (s : DockBase) : DockBase × List Signal :=
  if IF_ASSERT_FAILED s.m_dockWidget.isSome then (s, [])
  else
    match s.m_dockWidget with
    | some dw => ({ s with m_dockWidget := some (dw.record .show) }).setVisible true
    | none => (s, [])

/-- `DockBase::close`. -/
def close (s : DockBase) : DockBase × List Signal :=
  if IF_ASSERT_FAILED s.m_dockWidget.isSome then (s, [])
  else
    match s.m_dockWidget with
    | some dw => ({ s with m_dockWidget := some (dw.record .forceClose) }).setVisible false
    | none => (s, [])

/-- `DockBase::writeProperties`; `writePropertiesToObject` hands the record to
the dock widget. -/
def writeProperties (s : DockBase) : DockBase :=
  match s.m_dockWidget with
  | none => s
  | some dw =>
    let properties : DockProperties :=
      { type := s.dockType
        location := s.location
        persistent := s.persistent
        separatorsVisible := s.separatorsVisible
        highlightingRect := s.m_highlightingRect }
    { s with m_dockWidget := some (dw.record (.writeProperties properties)) }

/-- `DockBase::showHighlighting`. -/
def showHighlighting (s : DockBase) (highlightingRect : QRect) : DockBase :=
  if highlightingRect = s.m_highlightingRect then s
  else ({ s with m_highlightingRect := highlightingRect }).writeProperties

/-- `DockBase::hideHighlighting`. -/
def hideHighlighting (s : DockBase) : DockBase :=
  s.showHighlighting QRect.null

/-- `DockBase::frameGeometry`. -/
def frameGeometry (s : DockBase) : QRect :=
  match s.m_dockWidget with
  | some dw => if dw.isVisible then dw.frameGeometry else QRect.null
  | none => QRect.null

/-- `DockBase::resetToDefault`. -/
def resetToDefault (s : DockBase) : DockBase × List Signal :=
  s.setVisible s.m_defaultVisibility

/-- The value `updateFloatingStatus` recomputes:
`m_dockWidget && m_dockWidget->floatingWindow()`. -/
def recomputedFloating (s : DockBase) : Bool :=
  match s.m_dockWidget with
  | none => false
  | some dw => dw.floatingWindow.isSome

/-- `DockBase::updateFloatingStatus`. -/
def updateFloatingStatus (s : DockBase) : DockBase × List Signal :=
  let floating := s.recomputedFloating
  let oldValueIsNull := s.m_floating.isNone
  if !oldValueIsNull && s.m_floating.getD false == floating then (s, [])
  else
    let s1 := { s with m_floating := some floating }
    let (s2, emitted) := if !oldValueIsNull || floating then s1.emit .floatingChanged else (s1, [])
    (s2.applySizeConstraints, emitted)

/-- The slot `listenFloatingChanges` connects to the dock widget's
`parentChanged`.  The shared pointer `frameConn` is never null, so the stored
state is always cleared.  The Boolean returned tells whether the slot went on
to arm the zero-delay timer and to connect the frame's
`isInMainWindowChanged` to `updateFloatingStatus`. -/
def onParentChanged (s : DockBase) : DockBase × Bool :=
  let s1 := { s with m_floating := none }
  match s1.m_dockWidget with
  | none => (s1, false)
  | some dw =>
    if !dw.hasParentItem then (s1, false)
    else
      match dw.frame with
      | none => (s1, false)
      | some _ => (s1, true)

/-- The body of the zero-delay timer armed by `onParentChanged`. -/
def onSingleShot (s : DockBase) : DockBase × List Signal :=
  if !s.m_floating.isSome then s.updateFloatingStatus else (s, [])

/-- The slot `listenFloatingChanges` connects to the toggle action's `toggled`. -/
def onToggled (s : DockBase) : DockBase :=
  if !s.isOpen then { s with m_floating := none } else s

end DockBase

/-- What can happen to the floating state of an attached or unattached dock:
the three slots of `listenFloatingChanges`, the frame's
`isInMainWindowChanged` (connected to `updateFloatingStatus`), and a change
the docking library makes to the dock widget between two slots. -/
inductive FloatingEvent where
  | parentChanged
  | toggled
  | singleShot
  | isInMainWindowChanged
  | library (dw : DockWidgetQuick)
deriving DecidableEq, Repr

namespace DockBase

/-- One event handled by the adapter. -/
def handle (s : DockBase) : FloatingEvent → DockBase × List Signal
  | .parentChanged => (s.onParentChanged.1, [])
  | .toggled => (s.onToggled, [])
  | .singleShot => s.onSingleShot
  | .isInMainWindowChanged => s.updateFloatingStatus
  | .library dw =>
    match s.m_dockWidget with
    | none => (s, [])
    | some _ => ({ s with m_dockWidget := some dw }, [])

/-- A sequence of events handled one after the other; the signals emitted are
collected in order. -/
def run (s : DockBase) : List FloatingEvent → DockBase × List Signal
  | [] => (s, [])
  | e :: es =>
    let r := s.handle e
    let q := run r.1 es
    (q.1, r.2 ++ q.2)

/-- The steps of a run: for each event the state before it, the state after
it, and the signals emitted while it was handled. -/
def trace (s : DockBase) : List FloatingEvent → List (DockBase × DockBase × List Signal)
  | [] => []
  | e :: es =>
    let r := s.handle e
    (s, r.1, r.2) :: trace r.1 es

/-- The number of events of a run across which the value reported by
`floating()` changes. -/
def transitions (s : DockBase) : List FloatingEvent → Nat
  | [] => 0
  | e :: es =>
    let r := s.handle e
    (if s.floating = r.1.floating then 0 else 1) + transitions r.1 es

end DockBase

/-! ## Vocabulary of the size-constraint claims -/

/-- One bound as the specification resolves it: the configured value when it
is set (greater than `0`), the widget's own bound otherwise. -/
def resolveBound (configured widgetBound : Int) : Int :=
  if configured > 0 then configured else widgetBound

/-- The resolved minimum size of a dock over the widget `dw`. -/
def resolvedMinimumSize (s : DockBase) (dw : DockWidgetQuick) : QSize :=
  ⟨resolveBound s.m_minimumWidth dw.minimumSize.wd,
   resolveBound s.m_minimumHeight dw.minimumSize.ht⟩

/-- The resolved maximum size of a dock over the widget `dw`. -/
def resolvedMaximumSize (s : DockBase) (dw : DockWidgetQuick) : QSize :=
  ⟨resolveBound s.m_maximumWidth dw.maximumSize.wd,
   resolveBound s.m_maximumHeight dw.maximumSize.ht⟩

/-- The bounds a dock pushes to the docking library: the resolved minimum,
and the resolved maximum collapsed to the minimum when the dock is not
resizable. -/
def pushedBounds (s : DockBase) (dw : DockWidgetQuick) : QSize × QSize :=
  (resolvedMinimumSize s dw,
   if s.m_resizable then resolvedMaximumSize s dw else resolvedMinimumSize s dw)

/-- The floating window after the bounds `mn`, `mx` have been pushed to it: the
bounds are stored, the geometry starts at the corner of the drag rectangle and
has the clamped size, and the layout, when there is one, has the clamped
size. -/
def constrainedWindow (mn mx : QSize) (w : FloatingWindow) : FloatingWindow :=
  { w with
    minimumSize := mn
    maximumSize := mx
    geometry :=
      QRect.ofTopLeftSize w.dragRect.topLeft (adjustSizeByContraints w.frameGeometry.size mn mx)
    layoutWidget :=
      w.layoutWidget.map
        (fun _ => ⟨adjustSizeByContraints w.frameGeometry.size mn mx⟩) }

/-- The dock widget after the bounds `mn`, `mx` have been pushed to it, to its
frame and to its floating window. -/
def constrainedWidget (mn mx : QSize) (dw : DockWidgetQuick) : DockWidgetQuick :=
  { dw with
    minimumSize := mn
    maximumSize := mx
    frame := dw.frame.map (fun _ => ⟨mn, mx⟩)
    floatingWindow := dw.floatingWindow.map (constrainedWindow mn mx) }

/-! ## Example states -/

/-- A floating window at `(100, 100)` of size `400 x 400` whose drag area (its
title bar) is `400 x 30`. -/
def sampleWindow : FloatingWindow :=
  { minimumSize := ⟨10, 10⟩
    maximumSize := ⟨2000, 2000⟩
    frameGeometry := ⟨100, 100, 499, 499⟩
    dragRectSize := ⟨400, 30⟩
    geometry := ⟨100, 100, 499, 499⟩
    layoutWidget := some ⟨⟨400, 400⟩⟩ }

/-- An open, floating dock widget with a frame and the window `sampleWindow`. -/
def sampleWidget : DockWidgetQuick :=
  { isOpen := true
    isVisible := true
    hasParentItem := true
    frameGeometry := ⟨100, 100, 499, 499⟩
    minimumSize := ⟨10, 10⟩
    maximumSize := ⟨2000, 2000⟩
    frame := some ⟨⟨10, 10⟩, ⟨2000, 2000⟩⟩
    floatingWindow := some sampleWindow
    calls := [] }

/-- A dock whose widget is not attached yet, as after the constructor:
`m_resizable` and `m_separatorsVisible` are set and nothing is configured. -/
def unattachedDock : DockBase :=
  { m_title := ""
    m_minimumWidth := 0
    m_minimumHeight := 0
    m_maximumWidth := 0
    m_maximumHeight := 0
    m_contentWidth := 0
    m_contentHeight := 0
    m_location := 0
    m_dropDestinations := []
    m_persistent := false
    m_resizable := true
    m_separatorsVisible := true
    m_floating := none
    m_defaultVisibility := false
    m_highlightingRect := QRect.null
    m_dockWidget := none
    visible := true
    dockType := 1 }

/-- A resizable dock attached to `sampleWidget`, with a minimum of
`200 x 150` and a maximum of `300 x 250` configured. -/
def attachedDock : DockBase :=
  { unattachedDock with
    m_title := "Palettes"
    m_minimumWidth := 200
    m_minimumHeight := 150
    m_maximumWidth := 300
    m_maximumHeight := 250
    m_dockWidget := some sampleWidget }

/-- The dock `attachedDock` made non-resizable. -/
def fixedDock : DockBase :=
  { attachedDock with m_resizable := false }

/-- A resizable dock attached to `sampleWidget` whose configured minimum width
`500` exceeds its configured maximum width `300`. -/
def crossedDock : DockBase :=
  { attachedDock with m_minimumWidth := 500 }

/-- A dock whose drop-destination list holds a well-formed entry, an entry that
is not a map, and a map without the key `dropLocation`. -/
def dropDock : DockBase :=
  { unattachedDock with
    m_dropDestinations :=
      [ .ofMap [("dock", .ofObject 7), ("dropLocation", .ofInt 4), ("dropDistance", .ofInt 20)],
        .ofInt 3,
        .ofMap [("dock", .ofObject 2)] ] }

/-- The dock `attachedDock` known to be docked (`m_floating` holds `false`)
while the library already reports a floating window. -/
def dockedDock : DockBase :=
  { attachedDock with m_floating := some false }

/-- The dock `attachedDock` known to float (`m_floating` holds `true`), in
agreement with the library, which reports a floating window. -/
def floatingDock : DockBase :=
  { attachedDock with m_floating := some true }

/-- A dock being floated, as the adapter sees it: reparenting starts, the
deferred callback runs, and the frame reports its change. -/
def floatEvents : List FloatingEvent :=
  [.parentChanged, .singleShot, .isInMainWindowChanged]

end mu.dock

namespace mu.inspector

/-! ## The volta inspector model -/

/-- Modelled from the spec: the property identifiers `Ms::Pid` ("an enumerated
key identifying one editable attribute of a score element").  The enumeration
is absent from the sources covered here; `VOLTA_ENDING` is the identifier the
volta model names, the next three are those of the line properties the volta
model hides, and `other` stands for every further identifier. -/
inductive Pid where
  | VOLTA_ENDING
  | PLACEMENT
  | BEGIN_TEXT_OFFSET
  | CONTINUE_TEXT_OFFSET
  | other (n : Nat)
deriving DecidableEq, Repr

/-- Modelled from the spec: a `PropertyItem`, the bindable handle of one
property: its identifier, its current value, the element's style default and
its visibility.  The class is absent from the sources covered here; values are
kept as integers. -/
structure PropertyItem where
  propertyId : Pid
  value : Int
  defaultValue : Int
  isVisible : Bool
deriving DecidableEq, Repr

/-- Modelled from the spec: `PropertyItem::resetToDefault`, absent from the
sources covered here: "reset to the element's style default". -/
def PropertyItem.resetToDefault (p : PropertyItem) : PropertyItem :=
  { p with value := p.defaultValue }

/-- Modelled from the spec: `PropertyItem::setIsVisible`, absent from the
sources covered here. -/
def PropertyItem.setIsVisible (p : PropertyItem) (v : Bool) : PropertyItem :=
  { p with isVisible := v }

/-- Modelled from the spec: `PropertyItem::setValue`, absent from the sources
covered here: a user edit of the value ("write user edits back"). -/
def PropertyItem.setValue (p : PropertyItem) (v : Int) : PropertyItem :=
  { p with value := v }

/-- Modelled from the spec: `AbstractInspectorModel::buildPropertyItem`, absent
from the sources covered here: a fresh, visible handle keyed by the
identifier. -/
def buildPropertyItem (pid : Pid) : PropertyItem :=
  { propertyId := pid, value := 0, defaultValue := 0, isVisible := true }

/-- The selected score element as the models see it: for each property
identifier its current value and its style default. -/
abbrev Element := Pid → Int × Int

/-- Modelled from the spec: `AbstractInspectorModel::loadPropertyItem`, absent
from the sources covered here: "load their current values from the selected
score element(s)". -/
def loadPropertyItem (element : Element) (p : PropertyItem) : PropertyItem :=
  { p with value := (element p.propertyId).1, defaultValue := (element p.propertyId).2 }

/-- Modelled from the spec: the base class `LineSettingsModel`, absent from the
sources covered here.  It holds the three handles the volta model reaches
through `placement()`, `beginingTextHorizontalOffset()` and
`continiousTextHorizontalOffset()` (`none` is the null pointer), the further
handles of a line, and the identifiers of those further handles. -/
structure LineSettingsModel where
  otherPids : List Pid
  m_placement : Option PropertyItem
  m_beginingTextHorizontalOffset : Option PropertyItem
  m_continiousTextHorizontalOffset : Option PropertyItem
  m_otherProperties : List PropertyItem
deriving DecidableEq, Repr

namespace LineSettingsModel

/-- Modelled from the spec: `LineSettingsModel::createProperties`, absent from
the sources covered here: "create a fixed set of bindable property handles
keyed by a property identifier". -/
def createProperties (m : LineSettingsModel) : LineSettingsModel :=
  { m with
    m_placement := some (buildPropertyItem .PLACEMENT)
    m_beginingTextHorizontalOffset := some (buildPropertyItem .BEGIN_TEXT_OFFSET)
    m_continiousTextHorizontalOffset := some (buildPropertyItem .CONTINUE_TEXT_OFFSET)
    m_otherProperties := m.otherPids.map buildPropertyItem }

/-- Modelled from the spec: `LineSettingsModel::loadProperties`, absent from
the sources covered here. -/
def loadProperties (m : LineSettingsModel) (element : Element) : LineSettingsModel :=
  { m with
    m_placement := m.m_placement.map (loadPropertyItem element)
    m_beginingTextHorizontalOffset :=
      m.m_beginingTextHorizontalOffset.map (loadPropertyItem element)
    m_continiousTextHorizontalOffset :=
      m.m_continiousTextHorizontalOffset.map (loadPropertyItem element)
    m_otherProperties := m.m_otherProperties.map (loadPropertyItem element) }

/-- Modelled from the spec: `LineSettingsModel::resetProperties`, absent from
the sources covered here: "resetting any inspector property model restores
every owned property to the element's style default". -/
def resetProperties (m : LineSettingsModel) : LineSettingsModel :=
  { m with
    m_placement := m.m_placement.map PropertyItem.resetToDefault
    m_beginingTextHorizontalOffset :=
      m.m_beginingTextHorizontalOffset.map PropertyItem.resetToDefault
    m_continiousTextHorizontalOffset :=
      m.m_continiousTextHorizontalOffset.map PropertyItem.resetToDefault
    m_otherProperties := m.m_otherProperties.map PropertyItem.resetToDefault }

/-- The properties a line model owns. -/
def ownedProperties (m : LineSettingsModel) : List PropertyItem :=
  m.m_placement.toList ++ m.m_beginingTextHorizontalOffset.toList ++
    m.m_continiousTextHorizontalOffset.toList ++ m.m_otherProperties

end LineSettingsModel

/-- An entry of the list of end hook types: hook type, icon code and title. -/
structure HookTypeInfo where
  hookType : String
  icon : String
  title : String
deriving DecidableEq, Repr

/-- The state of a `VoltaSettingsModel`: its `LineSettingsModel` part, the
handle `m_repeatCount` (`none` is the null pointer), and what the constructor
sets through `setModelType`, `setTitle`, `setIcon` and
`setPossibleEndHookTypes`. -/
structure VoltaSettingsModel where
  toLineSettingsModel : LineSettingsModel
  m_repeatCount : Option PropertyItem
  modelType : String
  title : String
  icon : String
  possibleEndHookTypes : List HookTypeInfo
deriving DecidableEq, Repr

namespace VoltaSettingsModel

/-- `VoltaSettingsModel::repeatCount`. -/
def repeatCount (m : VoltaSettingsModel) : Option PropertyItem := m.m_repeatCount

/-- `VoltaSettingsModel::createProperties`.  Calling `setIsVisible` through a
null handle has no defined result: `none`. -/
def createProperties (m : VoltaSettingsModel) : Option VoltaSettingsModel :=
  let line := m.toLineSettingsModel.createProperties
  let m_repeatCount := some (buildPropertyItem .VOLTA_ENDING)
  match line.m_placement, line.m_beginingTextHorizontalOffset,
      line.m_continiousTextHorizontalOffset with
  | some placement, some beginingTextHorizontalOffset, some continiousTextHorizontalOffset =>
    some
      { m with
        toLineSettingsModel :=
          { line with
            m_placement := some (placement.setIsVisible false)
            m_beginingTextHorizontalOffset :=
              some (beginingTextHorizontalOffset.setIsVisible false)
            m_continiousTextHorizontalOffset :=
              some (continiousTextHorizontalOffset.setIsVisible false) }
        m_repeatCount := m_repeatCount }
  | _, _, _ => none

/-- The constructor `VoltaSettingsModel::VoltaSettingsModel`; `otherPids` are
the identifiers of the further handles of the line model. -/
def new (otherPids : List Pid) : Option VoltaSettingsModel :=
  let hookTypes : List HookTypeInfo :=
    [ ⟨"NONE", "LINE_WITH_INVERTED_START_HOOK", "Normal"⟩,
      ⟨"HOOK_90", "LINE_WITH_TWO_INVERTED_HOOKS", "Hooked 90"⟩ ]
  let m : VoltaSettingsModel :=
    { toLineSettingsModel :=
        { otherPids := otherPids
          m_placement := none
          m_beginingTextHorizontalOffset := none
          m_continiousTextHorizontalOffset := none
          m_otherProperties := [] }
      m_repeatCount := none
      modelType := "TYPE_VOLTA"
      title := "Volta"
      icon := "VOLTA"
      possibleEndHookTypes := hookTypes }
  m.createProperties

/-- `VoltaSettingsModel::loadProperties`. -/
def loadProperties (m : VoltaSettingsModel) (element : Element) : VoltaSettingsModel :=
  { m with
    toLineSettingsModel := m.toLineSettingsModel.loadProperties element
    m_repeatCount := m.m_repeatCount.map (loadPropertyItem element) }

/-- `VoltaSettingsModel::resetProperties`.  Calling `resetToDefault` through a
null `m_repeatCount` has no defined result: `none`. -/
def resetProperties (m : VoltaSettingsModel) : Option VoltaSettingsModel :=
  let line := m.toLineSettingsModel.resetProperties
  match m.m_repeatCount with
  | some repeatCount =>
    some { m with toLineSettingsModel := line, m_repeatCount := some repeatCount.resetToDefault }
  | none => none

/-- The properties a volta model owns: those of its line part and the repeat
count. -/
def ownedProperties (m : VoltaSettingsModel) : List PropertyItem :=
  m.toLineSettingsModel.ownedProperties ++ m.m_repeatCount.toList

/-- A user edit: the value of every owned property is replaced by what `edit`
gives for it. -/
def editValues (m : VoltaSettingsModel) (edit : PropertyItem → Int) : VoltaSettingsModel :=
  let change := fun (p : PropertyItem) => p.setValue (edit p)
  { m with
    toLineSettingsModel :=
      { m.toLineSettingsModel with
        m_placement := m.toLineSettingsModel.m_placement.map change
        m_beginingTextHorizontalOffset :=
          m.toLineSettingsModel.m_beginingTextHorizontalOffset.map change
        m_continiousTextHorizontalOffset :=
          m.toLineSettingsModel.m_continiousTextHorizontalOffset.map change
        m_otherProperties := m.toLineSettingsModel.m_otherProperties.map change }
    m_repeatCount := m.m_repeatCount.map change }

/-- The identifiers of the handles `createProperties` builds for a model whose
line part has the further identifiers `otherPids`. -/
def createdPids (otherPids : List Pid) : List Pid :=
  [.PLACEMENT, .BEGIN_TEXT_OFFSET, .CONTINUE_TEXT_OFFSET] ++ otherPids ++ [.VOLTA_ENDING]

end VoltaSettingsModel

/-- The volta models that exist: a model is built by the constructor and then
goes through loads, user edits and resets, in any order. -/
inductive VoltaSettingsModel.Live : VoltaSettingsModel → Prop where
  | constructed (otherPids : List Pid) (m : VoltaSettingsModel) :
      VoltaSettingsModel.new otherPids = some m → Live m
  | loaded (m : VoltaSettingsModel) (element : Element) :
      Live m → Live (m.loadProperties element)
  | edited (m : VoltaSettingsModel) (edit : PropertyItem → Int) :
      Live m → Live (m.editValues edit)
  | wasReset (m m1 : VoltaSettingsModel) :
      Live m → m.resetProperties = some m1 → Live m1

/-! ## Example model -/

/-- The volta model the constructor builds when the line part has one further
property. -/
def constructedVolta : VoltaSettingsModel :=
  { toLineSettingsModel :=
      { otherPids := [.other 0]
        m_placement := some ⟨.PLACEMENT, 0, 0, false⟩
        m_beginingTextHorizontalOffset := some ⟨.BEGIN_TEXT_OFFSET, 0, 0, false⟩
        m_continiousTextHorizontalOffset := some ⟨.CONTINUE_TEXT_OFFSET, 0, 0, false⟩
        m_otherProperties := [⟨.other 0, 0, 0, true⟩] }
    m_repeatCount := some ⟨.VOLTA_ENDING, 0, 0, true⟩
    modelType := "TYPE_VOLTA"
    title := "Volta"
    icon := "VOLTA"
    possibleEndHookTypes :=
      [ ⟨"NONE", "LINE_WITH_INVERTED_START_HOOK", "Normal"⟩,
        ⟨"HOOK_90", "LINE_WITH_TWO_INVERTED_HOOKS", "Hooked 90"⟩ ] }

/-- The model `constructedVolta` loaded from an element whose properties all
have the value `3` and the style default `1`, then edited to the value `9`. -/
def sampleVolta : VoltaSettingsModel :=
  (constructedVolta.loadProperties (fun _ => (3, 1))).editValues (fun _ => 9)

end mu.inspector

namespace mu.dock

/-! ## Properties of the dock adapter -/

mutual
/-- A variant compares equal to itself. -/
theorem QVariant.beq_self : ∀ v : QVariant, QVariant.beq v v = true
  | .invalid => by simp [QVariant.beq]
  | .ofInt _ => by simp [QVariant.beq]
  | .ofBool _ => by simp [QVariant.beq]
  | .ofString _ => by simp [QVariant.beq]
  | .ofObject _ => by simp [QVariant.beq]
  | .ofMap m => by simp [QVariant.beq, QVariant.beqMap_self m]
  | .ofList l => by simp [QVariant.beq, QVariant.beqList_self l]
/-- A variant map compares equal to itself. -/
theorem QVariant.beqMap_self : ∀ m : List (String × QVariant), QVariant.beqMap m m = true
  | [] => by simp [QVariant.beqMap]
  | (_, v) :: xs => by simp [QVariant.beqMap, QVariant.beq_self v, QVariant.beqMap_self xs]
/-- A variant list compares equal to itself. -/
theorem QVariant.beqList_self : ∀ l : List QVariant, QVariant.beqList l l = true
  | [] => by simp [QVariant.beqList]
  | v :: xs => by simp [QVariant.beqList, QVariant.beq_self v, QVariant.beqList_self xs]
end

/-- C1: for every state of the adapter, each of the twelve property setters,
called with the value its property currently holds, returns the state
unchanged and emits no signal. -/
theorem setter_with_current_value_is_silent (s : DockBase) :
    s.setTitle s.title = (s, []) ∧
    s.setMinimumWidth s.minimumWidth = (s, []) ∧
    s.setMinimumHeight s.minimumHeight = (s, []) ∧
    s.setMaximumWidth s.maximumWidth = (s, []) ∧
    s.setMaximumHeight s.maximumHeight = (s, []) ∧
    s.setContentWidth s.contentWidth = (s, []) ∧
    s.setContentHeight s.contentHeight = (s, []) ∧
    s.setLocation s.locationProperty = (s, []) ∧
    s.setDropDestinations s.dropDestinationsProperty = (s, []) ∧
    s.setPersistent s.persistent = (s, []) ∧
    s.setResizable s.resizable = (s, []) ∧
    s.setSeparatorsVisible s.separatorsVisible = (s, []) := by
  refine ⟨?_, ?_, ?_, ?_, ?_, ?_, ?_, ?_, ?_, ?_, ?_, ?_⟩
  · simp [DockBase.setTitle, DockBase.title]
  · simp [DockBase.setMinimumWidth, DockBase.minimumWidth]
  · simp [DockBase.setMinimumHeight, DockBase.minimumHeight]
  · simp [DockBase.setMaximumWidth, DockBase.maximumWidth]
  · simp [DockBase.setMaximumHeight, DockBase.maximumHeight]
  · simp [DockBase.setContentWidth, DockBase.contentWidth]
  · simp [DockBase.setContentHeight, DockBase.contentHeight]
  · simp [DockBase.setLocation, DockBase.locationProperty]
  · simp [DockBase.setDropDestinations, DockBase.dropDestinationsProperty,
      QVariant.beqList_self]
  · simp [DockBase.setPersistent, DockBase.persistent]
  · simp [DockBase.setResizable, DockBase.resizable]
  · simp [DockBase.setSeparatorsVisible, DockBase.separatorsVisible]

/-- The size of a rectangle built from a corner and a size is that size. -/
theorem QRect.size_ofTopLeftSize (p : QPoint) (sz : QSize) :
    (QRect.ofTopLeftSize p sz).size = sz := by
  cases sz
  simp only [QRect.ofTopLeftSize, QRect.size, QSize.mk.injEq]
  constructor <;> ring

/-- What `applySizeConstraints` does to an attached dock widget, in closed
form: the pushed bounds are stored on the widget, on its frame and on its
floating window, and nothing else of the adapter changes. -/
theorem DockBase.applySizeConstraints_attached (s : DockBase) (dw : DockWidgetQuick)
    (hdw : s.m_dockWidget = some dw) :
    s.applySizeConstraints =
      { s with
        m_dockWidget := some (constrainedWidget (pushedBounds s dw).1 (pushedBounds s dw).2 dw) } := by
  simp only [DockBase.applySizeConstraints, hdw]
  congr 2
  cases hf : dw.frame <;> cases hr : s.m_resizable <;> cases hw : dw.floatingWindow with
  | none =>
    simp [constrainedWidget, pushedBounds, hf, hw, hr,
      resolvedMinimumSize, resolvedMaximumSize, resolveBound,
      DockWidgetQuick.setMinimumSize, DockWidgetQuick.setMaximumSize,
      DockWidgetQuick.minimumWidth, DockWidgetQuick.minimumHeight,
      DockWidgetQuick.maximumWidth, DockWidgetQuick.maximumHeight,
      Frame.setMinimumSize, Frame.setMaximumSize]
  | some w =>
    cases hl : w.layoutWidget <;>
      simp [constrainedWidget, constrainedWindow, pushedBounds, hf, hw, hr, hl,
        resolvedMinimumSize, resolvedMaximumSize, resolveBound,
        DockWidgetQuick.setMinimumSize, DockWidgetQuick.setMaximumSize,
        DockWidgetQuick.minimumWidth, DockWidgetQuick.minimumHeight,
        DockWidgetQuick.maximumWidth, DockWidgetQuick.maximumHeight,
        Frame.setMinimumSize, Frame.setMaximumSize,
        FloatingWindow.setMinimumSize, FloatingWindow.setMaximumSize,
        FloatingWindow.setGeometry, FloatingWindow.dragRect, LayoutWidget.setLayoutSize]

/-- The clamp never exceeds the maximum, and reaches the minimum in every
dimension in which the minimum does not exceed the maximum. -/
theorem adjustSizeByContraints_bounds (size mn mx : QSize) :
    (adjustSizeByContraints size mn mx).wd ≤ mx.wd ∧
    (adjustSizeByContraints size mn mx).ht ≤ mx.ht ∧
    (mn.wd ≤ mx.wd → mn.wd ≤ (adjustSizeByContraints size mn mx).wd) ∧
    (mn.ht ≤ mx.ht → mn.ht ≤ (adjustSizeByContraints size mn mx).ht) ∧
    (mx.wd < mn.wd → (adjustSizeByContraints size mn mx).wd = mx.wd) ∧
    (mx.ht < mn.ht → (adjustSizeByContraints size mn mx).ht = mx.ht) := by
  simp only [adjustSizeByContraints, QSize.expandedTo, QSize.boundedTo]
  refine ⟨min_le_right _ _, min_le_right _ _, ?_, ?_, ?_, ?_⟩
  · intro h
    exact le_min (le_max_right _ _) h
  · intro h
    exact le_min (le_max_right _ _) h
  · intro h
    exact min_eq_right (le_trans (le_of_lt h) (le_max_right _ _))
  · intro h
    exact min_eq_right (le_trans (le_of_lt h) (le_max_right _ _))

/-- C2: whatever bounds are configured and whatever bounds the attached dock
widget currently has, when the dock is not resizable `applySizeConstraints`
leaves a maximum size equal to the minimum size on the dock widget, on its
frame when it has one, and on its floating window when it has one. -/
theorem applySizeConstraints_fixed_size (s : DockBase) (dw : DockWidgetQuick)
    (hdw : s.m_dockWidget = some dw) (hres : s.m_resizable = false) :
    ∃ dw1 : DockWidgetQuick,
      s.applySizeConstraints.m_dockWidget = some dw1 ∧
      dw1.maximumSize = dw1.minimumSize ∧
      (∀ f, dw.frame = some f →
        ∃ f1, dw1.frame = some f1 ∧ f1.maximumSize = f1.minimumSize) ∧
      (∀ w, dw.floatingWindow = some w →
        ∃ w1, dw1.floatingWindow = some w1 ∧ w1.maximumSize = w1.minimumSize) := by
  refine ⟨_, by rw [DockBase.applySizeConstraints_attached s dw hdw], ?_, ?_, ?_⟩
  · simp [constrainedWidget, pushedBounds, hres]
  · intro f hf
    simp [constrainedWidget, pushedBounds, hres, hf]
  · intro w hw
    simp [constrainedWidget, constrainedWindow, pushedBounds, hres, hw]

/-- C2 at the non-resizable dock `fixedDock`, which has a frame and a floating
window. -/
theorem applySizeConstraints_fixed_size_witness :
    fixedDock.m_dockWidget = some sampleWidget ∧ fixedDock.m_resizable = false ∧
    ∃ dw1 : DockWidgetQuick,
      fixedDock.applySizeConstraints.m_dockWidget = some dw1 ∧
      dw1.maximumSize = dw1.minimumSize ∧
      (∀ f, sampleWidget.frame = some f →
        ∃ f1, dw1.frame = some f1 ∧ f1.maximumSize = f1.minimumSize) ∧
      (∀ w, sampleWidget.floatingWindow = some w →
        ∃ w1, dw1.floatingWindow = some w1 ∧ w1.maximumSize = w1.minimumSize) :=
  ⟨rfl, rfl, applySizeConstraints_fixed_size fixedDock sampleWidget rfl rfl⟩

/-- C5: on an attached dock `applySizeConstraints` resolves each of the four
bounds on its own, as the configured value when that is greater than `0` and
as the widget's current bound otherwise; when the dock is resizable the
resolved minimum and maximum are the sizes it leaves on the dock widget, on
the frame when there is one and on the floating window when there is one. -/
theorem applySizeConstraints_resizable_bounds (s : DockBase) (dw : DockWidgetQuick)
    (hdw : s.m_dockWidget = some dw) (hres : s.m_resizable = true) :
    ∃ dw1 : DockWidgetQuick,
      s.applySizeConstraints.m_dockWidget = some dw1 ∧
      dw1.minimumSize =
        ⟨if s.m_minimumWidth > 0 then s.m_minimumWidth else dw.minimumSize.wd,
         if s.m_minimumHeight > 0 then s.m_minimumHeight else dw.minimumSize.ht⟩ ∧
      dw1.maximumSize =
        ⟨if s.m_maximumWidth > 0 then s.m_maximumWidth else dw.maximumSize.wd,
         if s.m_maximumHeight > 0 then s.m_maximumHeight else dw.maximumSize.ht⟩ ∧
      (∀ f, dw.frame = some f →
        ∃ f1, dw1.frame = some f1 ∧
          f1.minimumSize = dw1.minimumSize ∧ f1.maximumSize = dw1.maximumSize) ∧
      (∀ w, dw.floatingWindow = some w →
        ∃ w1, dw1.floatingWindow = some w1 ∧
          w1.minimumSize = dw1.minimumSize ∧ w1.maximumSize = dw1.maximumSize) ∧
      (dw.frame = none → dw1.frame = none) ∧
      (dw.floatingWindow = none → dw1.floatingWindow = none) := by
  refine ⟨_, by rw [DockBase.applySizeConstraints_attached s dw hdw], ?_, ?_, ?_, ?_, ?_, ?_⟩
  · simp [constrainedWidget, pushedBounds, resolvedMinimumSize, resolveBound]
  · simp [constrainedWidget, pushedBounds, resolvedMaximumSize, resolveBound, hres]
  · intro f hf
    simp [constrainedWidget, hf]
  · intro w hw
    simp [constrainedWidget, constrainedWindow, hw]
  · intro hf
    simp [constrainedWidget, hf]
  · intro hw
    simp [constrainedWidget, hw]

/-- C5 at the resizable dock `attachedDock`. -/
theorem applySizeConstraints_resizable_bounds_witness :
    attachedDock.m_dockWidget = some sampleWidget ∧ attachedDock.m_resizable = true ∧
    ∃ dw1 : DockWidgetQuick,
      attachedDock.applySizeConstraints.m_dockWidget = some dw1 ∧
      dw1.minimumSize =
        ⟨if attachedDock.m_minimumWidth > 0 then attachedDock.m_minimumWidth
          else sampleWidget.minimumSize.wd,
         if attachedDock.m_minimumHeight > 0 then attachedDock.m_minimumHeight
          else sampleWidget.minimumSize.ht⟩ ∧
      dw1.maximumSize =
        ⟨if attachedDock.m_maximumWidth > 0 then attachedDock.m_maximumWidth
          else sampleWidget.maximumSize.wd,
         if attachedDock.m_maximumHeight > 0 then attachedDock.m_maximumHeight
          else sampleWidget.maximumSize.ht⟩ ∧
      (∀ f, sampleWidget.frame = some f →
        ∃ f1, dw1.frame = some f1 ∧
          f1.minimumSize = dw1.minimumSize ∧ f1.maximumSize = dw1.maximumSize) ∧
      (∀ w, sampleWidget.floatingWindow = some w →
        ∃ w1, dw1.floatingWindow = some w1 ∧
          w1.minimumSize = dw1.minimumSize ∧ w1.maximumSize = dw1.maximumSize) ∧
      (sampleWidget.frame = none → dw1.frame = none) ∧
      (sampleWidget.floatingWindow = none → dw1.floatingWindow = none) :=
  ⟨rfl, rfl, applySizeConstraints_resizable_bounds attachedDock sampleWidget rfl rfl⟩

/-- C6, as stated, fails: on the dock `crossedDock` (configured minimum width
`500`, configured maximum width `300`, floating window of size `400 x 400`)
`applySizeConstraints` leaves the bounds `500 x 150` and `300 x 250` on the
floating window and gives it, and its layout, the size `300 x 250`, whose
width is below the minimum width. -/
theorem clamped_size_below_minimum_counterexample :
    ∃ dw1 w1,
      crossedDock.applySizeConstraints.m_dockWidget = some dw1 ∧
      dw1.floatingWindow = some w1 ∧
      w1.minimumSize = ⟨500, 150⟩ ∧ w1.maximumSize = ⟨300, 250⟩ ∧
      w1.geometry.size = ⟨300, 250⟩ ∧ w1.layoutWidget = some ⟨⟨300, 250⟩⟩ ∧
      ¬ (w1.minimumSize.wd ≤ w1.geometry.size.wd) := by
  refine ⟨_, _, rfl, rfl, ?_⟩
  decide

/-- C6, amended: for every current size of the floating window and all
resolved bounds, the size `applySizeConstraints` gives to the floating window
and to its layout is the clamp of the current size; in width and in height it
is at most the maximum, and it is at least the minimum in every dimension in
which the minimum does not exceed the maximum. -/
theorem clamped_size_within_bounds (s : DockBase) (dw : DockWidgetQuick) (w : FloatingWindow)
    (hdw : s.m_dockWidget = some dw) (hw : dw.floatingWindow = some w) :
    ∃ dw1 w1,
      s.applySizeConstraints.m_dockWidget = some dw1 ∧
      dw1.floatingWindow = some w1 ∧
      w1.geometry.size =
        adjustSizeByContraints w.frameGeometry.size w1.minimumSize w1.maximumSize ∧
      (∀ l, w.layoutWidget = some l → w1.layoutWidget = some ⟨w1.geometry.size⟩) ∧
      w1.geometry.size.wd ≤ w1.maximumSize.wd ∧
      w1.geometry.size.ht ≤ w1.maximumSize.ht ∧
      (w1.minimumSize.wd ≤ w1.maximumSize.wd → w1.minimumSize.wd ≤ w1.geometry.size.wd) ∧
      (w1.minimumSize.ht ≤ w1.maximumSize.ht → w1.minimumSize.ht ≤ w1.geometry.size.ht) := by
  have hb := adjustSizeByContraints_bounds w.frameGeometry.size
    (pushedBounds s dw).1 (pushedBounds s dw).2
  refine ⟨_, constrainedWindow (pushedBounds s dw).1 (pushedBounds s dw).2 w,
    by rw [DockBase.applySizeConstraints_attached s dw hdw], ?_, ?_, ?_, ?_, ?_, ?_, ?_⟩
  · simp [constrainedWidget, hw]
  · simp [constrainedWindow, QRect.size_ofTopLeftSize]
  · intro l hl
    simp [constrainedWindow, QRect.size_ofTopLeftSize, hl]
  · simpa [constrainedWindow, QRect.size_ofTopLeftSize] using hb.1
  · simpa [constrainedWindow, QRect.size_ofTopLeftSize] using hb.2.1
  · simpa [constrainedWindow, QRect.size_ofTopLeftSize] using hb.2.2.1
  · simpa [constrainedWindow, QRect.size_ofTopLeftSize] using hb.2.2.2.1

/-- C6, amended, at the dock `attachedDock` and its floating window. -/
theorem clamped_size_within_bounds_witness :
    attachedDock.m_dockWidget = some sampleWidget ∧
    sampleWidget.floatingWindow = some sampleWindow ∧
    ∃ dw1 w1,
      attachedDock.applySizeConstraints.m_dockWidget = some dw1 ∧
      dw1.floatingWindow = some w1 ∧
      w1.geometry.size =
        adjustSizeByContraints sampleWindow.frameGeometry.size w1.minimumSize w1.maximumSize ∧
      (∀ l, sampleWindow.layoutWidget = some l → w1.layoutWidget = some ⟨w1.geometry.size⟩) ∧
      w1.geometry.size.wd ≤ w1.maximumSize.wd ∧
      w1.geometry.size.ht ≤ w1.maximumSize.ht ∧
      (w1.minimumSize.wd ≤ w1.maximumSize.wd → w1.minimumSize.wd ≤ w1.geometry.size.wd) ∧
      (w1.minimumSize.ht ≤ w1.maximumSize.ht → w1.minimumSize.ht ≤ w1.geometry.size.ht) :=
  ⟨rfl, rfl, clamped_size_within_bounds attachedDock sampleWidget sampleWindow rfl rfl⟩

/-- C4: on every state in which no dock widget is attached, `setFloating`,
`init`, `open`, `close`, `applySizeConstraints` and `writeProperties` return
the state unchanged (the visibility included) and emit nothing, `isOpen`
returns `false`, and `frameGeometry` returns the default constructed, empty
rectangle. -/
theorem unattached_operations_are_noops (s : DockBase) (hdw : s.m_dockWidget = none) :
    (∀ floating, s.setFloating floating = (s, [])) ∧
    s.init = (s, []) ∧
    s.open = (s, []) ∧
    s.close = (s, []) ∧
    s.applySizeConstraints = s ∧
    s.writeProperties = s ∧
    s.isOpen = false ∧
    s.frameGeometry = QRect.null ∧
    s.frameGeometry.isEmpty = true := by
  refine ⟨?_, ?_, ?_, ?_, ?_, ?_, ?_, ?_, ?_⟩
  · intro floating
    simp [DockBase.setFloating, IF_ASSERT_FAILED, hdw]
  · simp [DockBase.init, IF_ASSERT_FAILED, hdw]
  · simp [DockBase.open, IF_ASSERT_FAILED, hdw]
  · simp [DockBase.close, IF_ASSERT_FAILED, hdw]
  · simp [DockBase.applySizeConstraints, hdw]
  · simp [DockBase.writeProperties, hdw]
  · simp [DockBase.isOpen, IF_ASSERT_FAILED, hdw]
  · simp [DockBase.frameGeometry, hdw]
  · simp [DockBase.frameGeometry, hdw, QRect.null, QRect.isEmpty]

/-- C4 at the dock `unattachedDock`. -/
theorem unattached_operations_are_noops_witness :
    unattachedDock.m_dockWidget = none ∧
    (∀ floating, unattachedDock.setFloating floating = (unattachedDock, [])) ∧
    unattachedDock.init = (unattachedDock, []) ∧
    unattachedDock.open = (unattachedDock, []) ∧
    unattachedDock.close = (unattachedDock, []) ∧
    unattachedDock.applySizeConstraints = unattachedDock ∧
    unattachedDock.writeProperties = unattachedDock ∧
    unattachedDock.isOpen = false ∧
    unattachedDock.frameGeometry = QRect.null ∧
    unattachedDock.frameGeometry.isEmpty = true :=
  ⟨rfl, unattached_operations_are_noops unattachedDock rfl⟩

/-- The loop of `dropDestinations` appends one destination per entry, in order. -/
theorem DockBase.dropDestinationsLoop_eq (l : QVariantList) (result : List DropDestination) :
    DockBase.dropDestinationsLoop l result = result ++ l.map DockBase.dropDestinationOf := by
  induction l generalizing result with
  | nil => simp [DockBase.dropDestinationsLoop]
  | cons obj rest ih => simp [DockBase.dropDestinationsLoop, ih]

/-- C7: `dropDestinations()` returns as many destinations as the list has
entries, and the destination at each position is built from the entry at that
position: its location is `Location::Left` when the entry has no key
`dropLocation` (in particular when the entry is not a map), and is the
location converted from the integer value under that key when the entry has
it. -/
theorem dropDestinations_entrywise (s : DockBase) (i : Nat) (obj : QVariant)
    (hobj : s.m_dropDestinations[i]? = some obj) :
    s.dropDestinations.length = s.m_dropDestinations.length ∧
    ∃ d, s.dropDestinations[i]? = some d ∧
      (obj.toMap.contains "dropLocation" = false → d.dropLocation = Location.Left) ∧
      ((∀ m, obj ≠ .ofMap m) → d.dropLocation = Location.Left) ∧
      (obj.toMap.contains "dropLocation" = true →
        d.dropLocation = Location.ofInt (obj.toMap.value "dropLocation").toInt) := by
  have hall : s.dropDestinations = s.m_dropDestinations.map DockBase.dropDestinationOf := by
    simp [DockBase.dropDestinations, DockBase.dropDestinationsLoop_eq]
  refine ⟨by simp [hall], DockBase.dropDestinationOf obj, by simp [hall, hobj], ?_, ?_, ?_⟩
  · intro h
    simp [DockBase.dropDestinationOf, h]
    split <;> rfl
  · intro h
    have hmap : obj.toMap = [] := by
      cases obj <;> first | rfl | exact absurd rfl (h _)
    simp [DockBase.dropDestinationOf, hmap, QVariantMap.contains]
  · intro h
    simp [DockBase.dropDestinationOf, h]
    split <;> rfl

/-- C7 at the second entry of `dropDock`, which is the integer `3` and not a
map. -/
theorem dropDestinations_entrywise_witness :
    dropDock.m_dropDestinations[1]? = some (.ofInt 3) ∧
    dropDock.dropDestinations.length = dropDock.m_dropDestinations.length ∧
    ∃ d, dropDock.dropDestinations[1]? = some d ∧
      ((QVariant.ofInt 3).toMap.contains "dropLocation" = false →
        d.dropLocation = Location.Left) ∧
      ((∀ m, QVariant.ofInt 3 ≠ .ofMap m) → d.dropLocation = Location.Left) ∧
      ((QVariant.ofInt 3).toMap.contains "dropLocation" = true →
        d.dropLocation = Location.ofInt ((QVariant.ofInt 3).toMap.value "dropLocation").toInt) :=
  ⟨rfl, dropDestinations_entrywise dropDock 1 (.ofInt 3) rfl⟩

/-- `applySizeConstraints` does not touch the stored floating state. -/
theorem DockBase.applySizeConstraints_m_floating (s : DockBase) :
    s.applySizeConstraints.m_floating = s.m_floating := by
  cases h : s.m_dockWidget with
  | none => simp [DockBase.applySizeConstraints, h]
  | some dw => rw [DockBase.applySizeConstraints_attached s dw h]

/-- A call of `updateFloatingStatus` that recomputes the resolved stored value
returns at once. -/
theorem DockBase.updateFloatingStatus_same (s : DockBase)
    (h : s.m_floating = some s.recomputedFloating) :
    s.updateFloatingStatus = (s, []) := by
  simp [DockBase.updateFloatingStatus, h]

/-- The outcome of `updateFloatingStatus`: the stored state ends as the
recomputed value, and `floatingChanged` is emitted, once, exactly when the
recomputed value differs from what `floating()` reported. -/
theorem DockBase.updateFloatingStatus_result (s : DockBase) :
    s.updateFloatingStatus.1.m_floating = some s.recomputedFloating ∧
    s.updateFloatingStatus.2 =
      if s.floating = s.recomputedFloating then [] else [Signal.floatingChanged] := by
  cases hm : s.m_floating with
  | none =>
    cases hr : s.recomputedFloating <;>
      simp [DockBase.updateFloatingStatus, hm, hr, DockBase.emit, DockBase.floating,
        DockBase.applySizeConstraints_m_floating]
  | some b =>
    cases hr : s.recomputedFloating <;> cases b <;>
      simp [DockBase.updateFloatingStatus, hm, hr, DockBase.emit, DockBase.floating,
        DockBase.applySizeConstraints_m_floating]

/-- C10: for every stored floating state and every recomputed value, a call of
`updateFloatingStatus` emits `floatingChanged` exactly when the value
`floating()` returns differs before and after the call, and then emits it
once; a first resolution from unknown to `false` emits nothing and one from
unknown to `true` emits once. -/
theorem updateFloatingStatus_emits_iff_getter_changes (s : DockBase) :
    (Signal.floatingChanged ∈ s.updateFloatingStatus.2 ↔
      s.floating ≠ s.updateFloatingStatus.1.floating) ∧
    (s.updateFloatingStatus.2 = [] ∨ s.updateFloatingStatus.2 = [Signal.floatingChanged]) ∧
    (s.m_floating = none → s.recomputedFloating = false →
      s.updateFloatingStatus.1.m_floating = some false ∧ s.updateFloatingStatus.2 = []) ∧
    (s.m_floating = none → s.recomputedFloating = true →
      s.updateFloatingStatus.1.m_floating = some true ∧
      s.updateFloatingStatus.2 = [Signal.floatingChanged]) := by
  obtain ⟨h1, h2⟩ := DockBase.updateFloatingStatus_result s
  have hg : s.updateFloatingStatus.1.floating = s.recomputedFloating := by
    simp [DockBase.floating, h1]
  refine ⟨?_, ?_, ?_, ?_⟩
  · rw [h2, hg]
    by_cases h : s.floating = s.recomputedFloating <;> simp [h]
  · rw [h2]
    by_cases h : s.floating = s.recomputedFloating <;> simp [h]
  · intro hm hr
    rw [h1, h2]
    simp [DockBase.floating, hm, hr]
  · intro hm hr
    rw [h1, h2]
    simp [DockBase.floating, hm, hr]

/-- C10 at the dock `attachedDock`, whose floating state is unknown while the
library reports a floating window. -/
theorem updateFloatingStatus_emits_iff_getter_changes_witness :
    attachedDock.m_floating = none ∧ attachedDock.recomputedFloating = true ∧
    attachedDock.updateFloatingStatus.1.m_floating = some true ∧
    attachedDock.updateFloatingStatus.2 = [Signal.floatingChanged] :=
  ⟨rfl, rfl, (updateFloatingStatus_emits_iff_getter_changes attachedDock).2.2.2 rfl rfl⟩

/-- Handling one event emits `floatingChanged` at most once, and only across a
change of the value `floating()` reports. -/
theorem DockBase.handle_count_le (s : DockBase) (e : FloatingEvent) :
    (s.handle e).2.count Signal.floatingChanged ≤
      (if s.floating = (s.handle e).1.floating then 0 else 1) := by
  obtain ⟨h1, h2⟩ := DockBase.updateFloatingStatus_result s
  have hg : s.updateFloatingStatus.1.floating = s.recomputedFloating := by
    simp [DockBase.floating, h1]
  have hu : s.updateFloatingStatus.2.count Signal.floatingChanged ≤
      (if s.floating = s.updateFloatingStatus.1.floating then 0 else 1) := by
    rw [h2, hg]
    by_cases h : s.floating = s.recomputedFloating <;> simp [h]
  cases e with
  | parentChanged => simp [DockBase.handle]
  | toggled => simp [DockBase.handle]
  | singleShot =>
    by_cases hm : s.m_floating.isSome
    · simp [DockBase.handle, DockBase.onSingleShot, hm]
    · simpa [DockBase.handle, DockBase.onSingleShot, hm] using hu
  | isInMainWindowChanged => simpa [DockBase.handle] using hu
  | library dw =>
    cases hd : s.m_dockWidget <;> simp [DockBase.handle, hd]

/-- Handling one event either emits nothing or is a call of
`updateFloatingStatus`. -/
theorem DockBase.handle_silent_or_update (s : DockBase) (e : FloatingEvent) :
    (s.handle e).2 = [] ∨ s.handle e = s.updateFloatingStatus := by
  cases e with
  | parentChanged => simp [DockBase.handle]
  | toggled => simp [DockBase.handle]
  | singleShot =>
    by_cases hm : s.m_floating.isSome
    · simp [DockBase.handle, DockBase.onSingleShot, hm]
    · simp [DockBase.handle, DockBase.onSingleShot, hm]
  | isInMainWindowChanged => simp [DockBase.handle]
  | library dw =>
    cases hd : s.m_dockWidget <;> simp [DockBase.handle, hd]

/-- A property that holds of every handled event holds of every step of a
trace. -/
theorem DockBase.trace_forall (P : DockBase × DockBase × List Signal → Prop)
    (hP : ∀ (s : DockBase) (e : FloatingEvent), P (s, (s.handle e).1, (s.handle e).2))
    (s : DockBase) (es : List FloatingEvent) :
    ∀ st ∈ s.trace es, P st := by
  induction es generalizing s with
  | nil => simp [DockBase.trace]
  | cons e es ih =>
    intro st hst
    simp only [DockBase.trace, List.mem_cons] at hst
    rcases hst with rfl | hst
    · exact hP s e
    · exact ih _ st hst

/-- Over a run, `floatingChanged` is emitted at most as often as the value
`floating()` reports changes. -/
theorem DockBase.run_count_le (s : DockBase) (es : List FloatingEvent) :
    (s.run es).2.count Signal.floatingChanged ≤ s.transitions es := by
  induction es generalizing s with
  | nil => simp [DockBase.run, DockBase.transitions]
  | cons e es ih =>
    simp only [DockBase.run, DockBase.transitions, List.count_append]
    exact Nat.add_le_add (DockBase.handle_count_le s e) (ih _)

/-- The signals of a run are those of its steps, in order. -/
theorem DockBase.run_signals (s : DockBase) (es : List FloatingEvent) :
    (s.run es).2 = ((s.trace es).map (fun st => st.2.2)).flatten := by
  induction es generalizing s with
  | nil => simp [DockBase.run, DockBase.trace]
  | cons e es ih => simp [DockBase.run, DockBase.trace, ih]

/-- C3: over every sequence of floating-state events, `floatingChanged` is
emitted only by `updateFloatingStatus` (every other handler emits nothing),
at most once per call, and only with the stored state already set to the
recomputed, defined value; a call whose recomputed value equals the resolved
stored value changes nothing and emits nothing.  Along a run every step that
emits does so once, ends in a resolved state and changes the value
`floating()` reports, so the emissions of the run number at most the changes
of that value. -/
theorem floatingChanged_only_on_resolved_transitions (s : DockBase)
    (es : List FloatingEvent) :
    (∀ e, (s.handle e).2 = [] ∨ s.handle e = s.updateFloatingStatus) ∧
    (s.handle .parentChanged).2 = [] ∧
    (s.handle .toggled).2 = [] ∧
    (s.updateFloatingStatus.2 = [] ∨ s.updateFloatingStatus.2 = [Signal.floatingChanged]) ∧
    (Signal.floatingChanged ∈ s.updateFloatingStatus.2 →
      s.updateFloatingStatus.1.m_floating = some s.recomputedFloating) ∧
    (∀ v, s.m_floating = some v → s.recomputedFloating = v →
      s.updateFloatingStatus = (s, [])) ∧
    (s.run es).2 = ((s.trace es).map (fun st => st.2.2)).flatten ∧
    (∀ st ∈ s.trace es, Signal.floatingChanged ∈ st.2.2 →
      st.2.2 = [Signal.floatingChanged] ∧ st.2.1.m_floating.isSome = true ∧
      st.1.floating ≠ st.2.1.floating) ∧
    (s.run es).2.count Signal.floatingChanged ≤ s.transitions es := by
  have hres := DockBase.updateFloatingStatus_result
  refine ⟨DockBase.handle_silent_or_update s, by simp [DockBase.handle],
    by simp [DockBase.handle], ?_, fun _ => (hres s).1, ?_, DockBase.run_signals s es, ?_,
    DockBase.run_count_le s es⟩
  · rw [(hres s).2]
    by_cases h : s.floating = s.recomputedFloating <;> simp [h]
  · intro v hv hr
    exact DockBase.updateFloatingStatus_same s (by rw [hv, hr])
  · refine DockBase.trace_forall
      (fun st => Signal.floatingChanged ∈ st.2.2 →
        st.2.2 = [Signal.floatingChanged] ∧ st.2.1.m_floating.isSome = true ∧
        st.1.floating ≠ st.2.1.floating) ?_ s es
    intro t e hmem
    rcases DockBase.handle_silent_or_update t e with h0 | hu
    · simp [h0] at hmem
    · simp only [hu] at hmem ⊢
      have hg : t.updateFloatingStatus.1.floating = t.recomputedFloating := by
        simp [DockBase.floating, (hres t).1]
      rw [(hres t).2] at hmem ⊢
      rw [(hres t).1, hg]
      by_cases h : t.floating = t.recomputedFloating
      · simp [h] at hmem
      · simp [h]

/-- C3 on two inputs: the dock `floatingDock`, whose resolved state agrees
with the library, and the run `floatEvents` from `dockedDock`, which emits
`floatingChanged` once, in its second step. -/
theorem floatingChanged_only_on_resolved_transitions_witness :
    (floatingDock.m_floating = some true ∧ floatingDock.recomputedFloating = true ∧
      floatingDock.updateFloatingStatus = (floatingDock, [])) ∧
    ((dockedDock.run floatEvents).2 = [Signal.floatingChanged] ∧
      dockedDock.transitions floatEvents = 1 ∧
      (dockedDock.run floatEvents).2.count Signal.floatingChanged ≤
        dockedDock.transitions floatEvents) :=
  ⟨⟨rfl, rfl,
    (floatingChanged_only_on_resolved_transitions floatingDock []).2.2.2.2.2.1 true rfl rfl⟩,
   ⟨by decide, by decide,
    (floatingChanged_only_on_resolved_transitions dockedDock floatEvents).2.2.2.2.2.2.2.2⟩⟩

end mu.dock

namespace mu.inspector

/-! ## Properties of the volta inspector model -/

/-- The list of a mapped optional handle is the mapped list of the handle. -/
theorem Option.toList_map_item {α β : Type} (f : α → β) (o : Option α) :
    (o.map f).toList = o.toList.map f := by
  cases o <;> rfl

/-- Applying one change to every handle of a model applies it to every owned
property. -/
theorem VoltaSettingsModel.ownedProperties_map (m : VoltaSettingsModel)
    (f : PropertyItem → PropertyItem) :
    ({ m with
        toLineSettingsModel :=
          { m.toLineSettingsModel with
            m_placement := m.toLineSettingsModel.m_placement.map f
            m_beginingTextHorizontalOffset :=
              m.toLineSettingsModel.m_beginingTextHorizontalOffset.map f
            m_continiousTextHorizontalOffset :=
              m.toLineSettingsModel.m_continiousTextHorizontalOffset.map f
            m_otherProperties := m.toLineSettingsModel.m_otherProperties.map f }
        m_repeatCount := m.m_repeatCount.map f } : VoltaSettingsModel).ownedProperties =
      m.ownedProperties.map f := by
  simp [VoltaSettingsModel.ownedProperties, LineSettingsModel.ownedProperties,
    Option.toList_map_item]

/-- Loading maps `loadPropertyItem` over the owned properties. -/
theorem VoltaSettingsModel.loadProperties_owned (m : VoltaSettingsModel) (element : Element) :
    (m.loadProperties element).ownedProperties =
      m.ownedProperties.map (loadPropertyItem element) :=
  VoltaSettingsModel.ownedProperties_map m (loadPropertyItem element)

/-- Editing maps `setValue` over the owned properties. -/
theorem VoltaSettingsModel.editValues_owned (m : VoltaSettingsModel)
    (edit : PropertyItem → Int) :
    (m.editValues edit).ownedProperties =
      m.ownedProperties.map (fun p => p.setValue (edit p)) :=
  VoltaSettingsModel.ownedProperties_map m (fun p => p.setValue (edit p))

/-- With the repeat-count handle in place `resetProperties` succeeds and maps
`resetToDefault` over the owned properties. -/
theorem VoltaSettingsModel.resetProperties_of_handle (m : VoltaSettingsModel)
    (rc : PropertyItem) (h : m.m_repeatCount = some rc) :
    ∃ m1, m.resetProperties = some m1 ∧
      m1.toLineSettingsModel = m.toLineSettingsModel.resetProperties ∧
      m1.m_repeatCount = some rc.resetToDefault ∧
      m1.ownedProperties = m.ownedProperties.map PropertyItem.resetToDefault := by
  refine ⟨{ m with
      toLineSettingsModel := m.toLineSettingsModel.resetProperties
      m_repeatCount := some rc.resetToDefault },
    by simp [VoltaSettingsModel.resetProperties, h], rfl, rfl, ?_⟩
  have := VoltaSettingsModel.ownedProperties_map m PropertyItem.resetToDefault
  simpa [h, LineSettingsModel.resetProperties] using this

/-- Every live volta model has its repeat-count handle, keyed by
`VOLTA_ENDING`, and owns exactly the properties `createProperties` built. -/
theorem VoltaSettingsModel.Live.wellFormed {m : VoltaSettingsModel}
    (h : VoltaSettingsModel.Live m) :
    (∃ rc, m.m_repeatCount = some rc ∧ rc.propertyId = Pid.VOLTA_ENDING) ∧
    m.ownedProperties.map (fun p => p.propertyId) =
      VoltaSettingsModel.createdPids m.toLineSettingsModel.otherPids := by
  induction h with
  | constructed otherPids m hnew =>
    simp [VoltaSettingsModel.new, VoltaSettingsModel.createProperties,
      LineSettingsModel.createProperties] at hnew
    subst hnew
    simp [VoltaSettingsModel.ownedProperties, LineSettingsModel.ownedProperties,
      VoltaSettingsModel.createdPids, buildPropertyItem, PropertyItem.setIsVisible,
      Function.comp_def]
  | loaded m element _ ih =>
    obtain ⟨⟨rc, hrc, hid⟩, hp⟩ := ih
    refine ⟨⟨loadPropertyItem element rc, by simp [VoltaSettingsModel.loadProperties, hrc],
      by simpa [loadPropertyItem] using hid⟩, ?_⟩
    rw [VoltaSettingsModel.loadProperties_owned]
    simpa [Function.comp_def, loadPropertyItem, VoltaSettingsModel.loadProperties,
      LineSettingsModel.loadProperties] using hp
  | edited m edit _ ih =>
    obtain ⟨⟨rc, hrc, hid⟩, hp⟩ := ih
    refine ⟨⟨rc.setValue (edit rc), by simp [VoltaSettingsModel.editValues, hrc],
      by simpa [PropertyItem.setValue] using hid⟩, ?_⟩
    rw [VoltaSettingsModel.editValues_owned]
    simpa [Function.comp_def, PropertyItem.setValue, VoltaSettingsModel.editValues] using hp
  | wasReset m m1 _ hreset ih =>
    obtain ⟨⟨rc, hrc, hid⟩, hp⟩ := ih
    obtain ⟨m2, h2, hline, hrc2, hown⟩ := VoltaSettingsModel.resetProperties_of_handle m rc hrc
    rw [h2] at hreset
    cases hreset
    refine ⟨⟨rc.resetToDefault, hrc2, by simpa [PropertyItem.resetToDefault] using hid⟩, ?_⟩
    rw [hown, hline]
    simpa [Function.comp_def, PropertyItem.resetToDefault, LineSettingsModel.resetProperties]
      using hp

/-- C8: for every volta model that exists (built by the constructor, then
loaded, edited and reset in any order) the repeat-count handle exists and is
the one built for `VOLTA_ENDING`, so `resetProperties` succeeds; it performs
the inherited reset of the line part and resets the repeat count, after which
every owned property has its default value, and the owned properties are
exactly the ones `createProperties` built. -/
theorem resetProperties_restores_every_owned_property (m : VoltaSettingsModel)
    (h : VoltaSettingsModel.Live m) :
    ∃ rc m1,
      m.m_repeatCount = some rc ∧ rc.propertyId = Pid.VOLTA_ENDING ∧
      m.resetProperties = some m1 ∧
      m1.toLineSettingsModel = m.toLineSettingsModel.resetProperties ∧
      m1.m_repeatCount = some rc.resetToDefault ∧
      m1.ownedProperties = m.ownedProperties.map PropertyItem.resetToDefault ∧
      (∀ p ∈ m1.ownedProperties, p.value = p.defaultValue) ∧
      m1.ownedProperties.map (fun p => p.propertyId) =
        VoltaSettingsModel.createdPids m.toLineSettingsModel.otherPids := by
  obtain ⟨⟨rc, hrc, hid⟩, hp⟩ := h.wellFormed
  obtain ⟨m1, h1, hline, hrc1, hown⟩ := VoltaSettingsModel.resetProperties_of_handle m rc hrc
  refine ⟨rc, m1, hrc, hid, h1, hline, hrc1, hown, ?_, ?_⟩
  · intro p hpmem
    rw [hown] at hpmem
    obtain ⟨q, _, rfl⟩ := List.mem_map.mp hpmem
    rfl
  · rw [hown]
    simpa [Function.comp_def, PropertyItem.resetToDefault] using hp

/-- C8 at the model `sampleVolta`, which the constructor built and which was
then loaded and edited. -/
theorem resetProperties_restores_every_owned_property_witness :
    VoltaSettingsModel.new [.other 0] = some constructedVolta ∧
    VoltaSettingsModel.Live sampleVolta ∧
    ∃ rc m1,
      sampleVolta.m_repeatCount = some rc ∧ rc.propertyId = Pid.VOLTA_ENDING ∧
      sampleVolta.resetProperties = some m1 ∧
      m1.toLineSettingsModel = sampleVolta.toLineSettingsModel.resetProperties ∧
      m1.m_repeatCount = some rc.resetToDefault ∧
      m1.ownedProperties = sampleVolta.ownedProperties.map PropertyItem.resetToDefault ∧
      (∀ p ∈ m1.ownedProperties, p.value = p.defaultValue) ∧
      m1.ownedProperties.map (fun p => p.propertyId) =
        VoltaSettingsModel.createdPids sampleVolta.toLineSettingsModel.otherPids :=
  have hlive : VoltaSettingsModel.Live sampleVolta :=
    .edited _ _ (.loaded _ _ (.constructed [.other 0] constructedVolta rfl))
  ⟨rfl, hlive, resetProperties_restores_every_owned_property sampleVolta hlive⟩

end mu.inspector
